import Mathlib

/-!
Verification of the neat-resume two-column PDF generator.

Shallow embedding of the `neatresume` / `neat_resume` packages:

* the resume data model (`resume.py`, and the `resume_data` variant used by
  `generator.py`),
* the flowable-story construction of `ResumeGenerator.generate_pdf` and its
  section builders (`generator.py`),
* the column-overflow state machine of `ColumnAwareDoc.handle_flowable`,
* the page/option geometry of both `config.py` iterations,
* the background painting of `TintedPageTemplate.beforeDrawPage`.

Numeric fields that are Python floats (page dimensions, margins, ratios) are
modelled as exact rationals; machine dates as records of naturals.  Python
`dict`s are modelled as association lists in insertion order, matching the
iteration order the generator relies on.
-/

/-- One typographic point per unit; `inch = 72` points (reportlab's `inch`). -/
def inchPt : ℚ := 72

/-- A calendar date as used by `datetime.date`: year, month (1-12), day. -/
structure Date where
  year : Nat
  month : Nat
  day : Nat
deriving DecidableEq, Repr

/-- C-locale abbreviated month name, as produced by `strftime("%b")`. -/
def monthAbbrev : Nat → String
  | 1 => "Jan"
  | 2 => "Feb"
  | 3 => "Mar"
  | 4 => "Apr"
  | 5 => "May"
  | 6 => "Jun"
  | 7 => "Jul"
  | 8 => "Aug"
  | 9 => "Sep"
  | 10 => "Oct"
  | 11 => "Nov"
  | 12 => "Dec"
  | _ => ""

/-- Zero-pad a year to four digits, as `strftime("%Y")` does on glibc. -/
def pad4 (n : Nat) : String :=
  let s := toString n
  if s.length ≥ 4 then s else String.mk (List.replicate (4 - s.length) '0' ++ s.data)

/-- Source: `d.strftime("%Y")`. -/
def fmtY (d : Date) : String := pad4 d.year

/-- Source: `d.strftime("%b %Y")`. -/
def fmtBY (d : Date) : String := monthAbbrev d.month ++ " " ++ pad4 d.year

/-- Render a nonnegative rational with two decimal places, as Python's
fixed-point .2f format string does for the in-range GPA values (ties of the
underlying float formatting are approximated by round-half-up; no claim
evaluates a tie). -/
def fmtFixed2 (q : ℚ) : String :=
  let n : ℤ := ⌊q * 100 + 1/2⌋
  let m : Nat := n.toNat
  toString (m / 100) ++ "." ++
    (let r := m % 100
     (if r < 10 then "0" else "") ++ toString r)

/-- Python truthiness of an optional string (`None` and `""` are falsy). -/
def optStrTruthy : Option String → Bool
  | none => false
  | some s => s ≠ ""

/-- Python truthiness of an optional float (`None` and `0.0` are falsy),
as tested by `if edu.gpa:`. -/
def gpaTruthy : Option ℚ → Bool
  | none => false
  | some g => g ≠ 0

/-- Pydantic's field validation for `EducationBlock.gpa`
(`ge=0, le=4`, `None` allowed): `resume.py`. -/
def gpaValid : Option ℚ → Bool
  | none => true
  | some g => 0 ≤ g && g ≤ 4

/-- Source: `str.upper()` restricted to the model's character-wise behaviour. -/
def pyUpper (s : String) : String := s.map Char.toUpper

/-- Source: `candidate_name.lower().replace(" ", "_")` from `Config.generate_filename`. -/
def slugify (s : String) : String :=
  String.mk (s.data.map (fun c => if c = ' ' then '_' else c.toLower))

/-- Does `p` lead (start) the list `l`? -/
def leadsWith : List Char → List Char → Bool
  | [], _ => true
  | _ :: _, [] => false
  | a :: as, b :: bs => a == b && leadsWith as bs

/-- Does `pat` occur as a contiguous sublist of `l`? -/
def hasSub (pat : List Char) : List Char → Bool
  | [] => leadsWith pat []
  | b :: bs => leadsWith pat (b :: bs) || hasSub pat bs

/-- Does `pat` occur as a substring of `s`? -/
def containsSub (s pat : String) : Bool := hasSub pat.data s.data

theorem leadsWith_self_append (p r : List Char) : leadsWith p (p ++ r) = true := by
  induction p with
  | nil => rfl
  | cons a as ih => simp [leadsWith, ih]

theorem hasSub_append_right (pat l₂ : List Char) (l₁ : List Char)
    (h : hasSub pat l₂ = true) : hasSub pat (l₁ ++ l₂) = true := by
  induction l₁ with
  | nil => simpa using h
  | cons a as ih =>
    simp only [List.cons_append, hasSub, Bool.or_eq_true]
    exact Or.inr ih

theorem hasSub_of_leadsWith (pat l : List Char) (h : leadsWith pat l = true) :
    hasSub pat l = true := by
  cases l with
  | nil => simpa [hasSub] using h
  | cons b bs => simp [hasSub, h]

/-- A substring occurs in any string of which it is an infix written as
`a ++ pat ++ b`. -/
theorem containsSub_of_middle (a pat b : String) :
    containsSub (a ++ (pat ++ b)) pat = true := by
  unfold containsSub
  have h2 : hasSub pat.data (pat.data ++ b.data) = true :=
    hasSub_of_leadsWith _ _ (leadsWith_self_append _ _)
  have := hasSub_append_right pat.data (pat.data ++ b.data) a.data h2
  simpa [String.data_append] using this

/-! ## Resume data model

`neatresume/resume.py` and the `resume_data` module consumed by
`generator.py`.  Optional text fields model Python `Optional[str]`; the
generator tests them with Python truthiness. -/

/-- Source: `CandidateInfo` (identical field set in both package iterations). -/
structure CandidateInfo where
  name : String
  title : String
  email : String
  phone : String
  address : Option String := none
  website : Option String := none
  linkedin : Option String := none
  github : Option String := none
  gitlab : Option String := none
deriving DecidableEq, Repr

/-- Source: `ExperienceBlock`: required company/position/start date/summary,
optional end date (`None` = current). -/
structure ExperienceBlock where
  company : String
  position : String
  start_date : Date
  summary : List String
  end_date : Option Date := none
deriving DecidableEq, Repr

/-- Source: `EducationBlock`: gpa is `Optional[float]` validated to `[0, 4]`. -/
structure EducationBlock where
  degree : String
  field_of_study : String
  institution : String
  location : Option String := none
  start_date : Date
  summary : List String := []
  end_date : Option Date := none
  gpa : Option ℚ := none
deriving DecidableEq, Repr

/-- Source: `CertificationBlock` as accessed by
`ResumeGenerator._build_certifications_section` (title, optional issuer,
issue and expiry dates). -/
structure CertificationBlock where
  title : String
  issuer : Option String := none
  issue_date : Option Date := none
  expiry_date : Option Date := none
deriving DecidableEq, Repr

/-- Source: `SectionBlock` for custom sections: title and summary always present,
subtitle optional (the generator probes them with `hasattr` + truthiness). -/
structure SectionBlock where
  title : String
  subtitle : Option String := none
  summary : List String := []
  start_date : Option Date := none
  end_date : Option Date := none
  location : Option String := none
deriving DecidableEq, Repr

/-- The `ResumeData` aggregate consumed by `ResumeGenerator.generate_pdf`.
Python `dict`s (skills, custom sections) are association lists in
insertion order. -/
structure ResumeData where
  candidate_info : CandidateInfo
  professional_summary : String
  skills : List (String × List String) := []
  education : List EducationBlock := []
  work_experience : List ExperienceBlock := []
  certifications : List CertificationBlock := []
  custom_sections : List (String × List SectionBlock) := []
deriving DecidableEq, Repr

/-! ## Flowables and the generator's story -/

/-- A reportlab flowable as appended to the story by the generator:
paragraphs carry their text and style name; `Spacer(w, h)`; a horizontal
`Line` inside a `Drawing` of the given width; the
`LeftColumnFinishedMarker`; `FrameBreak`. -/
inductive Flowable where
  | para (text style : String)
  | spacer (width height : ℚ)
  | hline (width : ℚ)
  | marker
  | frameBreak
deriving DecidableEq, Repr

/-- Concatenation `f x₀ ++ f x₁ ++ ⋯` over a list, the shape of the generator's
`for`-loops extending `elements`. -/
def concatMap (f : α → List β) : List α → List β
  | [] => []
  | x :: xs => f x ++ concatMap f xs

theorem concatMap_append (f : α → List β) (l₁ l₂ : List α) :
    concatMap f (l₁ ++ l₂) = concatMap f l₁ ++ concatMap f l₂ := by
  induction l₁ with
  | nil => rfl
  | cons a as ih => simp [concatMap, ih]

theorem mem_concatMap {f : α → List β} {b : β} {l : List α} :
    b ∈ concatMap f l ↔ ∃ a ∈ l, b ∈ f a := by
  induction l with
  | nil => simp [concatMap]
  | cons a as ih => simp [concatMap, ih]

/-- Column widths stored on the generator instance in `generate_pdf`
(`self.left_col_width`, `self.right_col_width`). -/
structure GenWidths where
  left_col_width : ℚ
  right_col_width : ℚ
deriving DecidableEq, Repr

/-- Source: `letter` page size: 612 × 792 points. -/
def letterSize : ℚ × ℚ := (612, 792)

/-- The 0.25-inch margin used on all four sides in `generate_pdf`. -/
def genMarginPt : ℚ := 1/4 * inchPt

/-- Source: `page_width = letter[0] - doc.leftMargin - doc.rightMargin` (the usable
content width, despite its name in the source). -/
def genContentWidth : ℚ := letterSize.1 - genMarginPt - genMarginPt

/-- Source: `left_col_width = page_width * 0.34`. -/
def genLeftColFrame : ℚ := genContentWidth * (34/100)

/-- Source: `right_col_width = page_width * 0.66`. -/
def genRightColFrame : ℚ := genContentWidth * (66/100)

/-- The widths stored on the generator (`frame width minus 0.1 in gap`). -/
def genWidths : GenWidths :=
  { left_col_width := genLeftColFrame - 1/10 * inchPt
    right_col_width := genRightColFrame - 1/10 * inchPt }

/-- Source: `ResumeGenerator._create_section_header`: title paragraph, underline
drawing, small spacer. -/
def createSectionHeader (g : GenWidths) (title : String)
    (for_right_column : Bool) : List Flowable :=
  if for_right_column then
    [Flowable.para title "SectionHeader",
     Flowable.hline (g.right_col_width - 15/100 * inchPt),
     Flowable.spacer 1 (2/100 * inchPt)]
  else
    [Flowable.para title "LeftColumnHeader",
     Flowable.hline (g.left_col_width - 15/100 * inchPt),
     Flowable.spacer 1 (2/100 * inchPt)]

/-- Source: `ResumeGenerator._build_candidate_header`. -/
def buildCandidateHeader (c : CandidateInfo) : List Flowable :=
  [Flowable.para c.name "CandidateName", Flowable.para c.title "CandidateTitle"]

/-- Source: `format_contact_line` inside `_build_contact_info`: wraps the icon in a
Symbola font tag when the font was registered. -/
def formatContactLine (symbola : Bool) (icon text : String) : String :=
  if symbola then "<font name=\"Symbola\">" ++ icon ++ "</font> " ++ text
  else icon ++ " " ++ text

/-- The `contact_info` line list of `_build_contact_info` (phone and email
always; address/website truthy; LinkedIn/GitHub/GitLab as fixed labels). -/
def contactLines (symbola : Bool) (c : CandidateInfo) : List String :=
  [formatContactLine symbola "📞" c.phone,
   formatContactLine symbola "🖂" c.email] ++
  (match c.address with
   | some a => if a ≠ "" then [formatContactLine symbola "📍" a] else []
   | none => []) ++
  (match c.website with
   | some w => if w ≠ "" then [formatContactLine symbola "🌐" w] else []
   | none => []) ++
  (match c.linkedin with
   | some l => if l ≠ "" then [formatContactLine symbola "🌐" "LinkedIn"] else []
   | none => []) ++
  (match c.github with
   | some gh => if gh ≠ "" then [formatContactLine symbola "🌐" "GitHub"] else []
   | none => []) ++
  (match c.gitlab with
   | some gl => if gl ≠ "" then [formatContactLine symbola "🌐" "GitLab"] else []
   | none => [])

/-- Source: `ResumeGenerator._build_contact_info`. -/
def buildContactInfo (g : GenWidths) (symbola : Bool) (c : CandidateInfo) :
    List Flowable :=
  createSectionHeader g "CONTACT" false ++
  (contactLines symbola c).map (fun info => Flowable.para info "LeftColumnText") ++
  [Flowable.spacer 1 (5/100 * inchPt)]

/-- Source: `ResumeGenerator._build_professional_summary_left`. -/
def buildProfessionalSummaryLeft (summary : String) : List Flowable :=
  [Flowable.para summary "LeftColumnSummary", Flowable.spacer 1 (5/100 * inchPt)]

/-- The loop body of `_build_skills_section`: category name, joined skill
list, and a spacer that is larger between categories than after the last. -/
def skillsLoop : List (String × List String) → List Flowable
  | [] => []
  | [(category, skill_list)] =>
    [Flowable.para ("<b>" ++ pyUpper category ++ "</b>") "LeftColumnText",
     Flowable.para (String.intercalate " • " skill_list) "LeftColumnText",
     Flowable.spacer 1 (2/100 * inchPt)]
  | (category, skill_list) :: rest =>
    [Flowable.para ("<b>" ++ pyUpper category ++ "</b>") "LeftColumnText",
     Flowable.para (String.intercalate " • " skill_list) "LeftColumnText",
     Flowable.spacer 1 (8/100 * inchPt)] ++ skillsLoop rest

/-- Source: `ResumeGenerator._build_skills_section`: the header is emitted before
the loop, unconditionally. -/
def buildSkillsSection (g : GenWidths) (skills : List (String × List String)) :
    List Flowable :=
  createSectionHeader g "SKILLS" false ++ skillsLoop skills ++
  [Flowable.spacer 1 (5/100 * inchPt)]

/-- Per-entry elements of `_build_education_section`. -/
def eduElements (edu : EducationBlock) : List Flowable :=
  [Flowable.para ("<b>" ++ edu.degree ++ "</b>") "LeftColumnText",
   Flowable.para edu.field_of_study "LeftColumnText",
   Flowable.para edu.institution "LeftColumnText"] ++
  (match edu.location with
   | some l => if l ≠ "" then [Flowable.para l "LeftColumnText"] else []
   | none => []) ++
  [Flowable.para
    (fmtY edu.start_date ++ " - " ++
      (match edu.end_date with
       | some d => fmtY d
       | none => "Present")) "LeftColumnText"] ++
  (if gpaTruthy edu.gpa then
    [Flowable.para ("GPA: " ++ fmtFixed2 (edu.gpa.getD 0)) "LeftColumnText"]
   else []) ++
  [Flowable.spacer 1 (5/100 * inchPt)]

/-- Source: `ResumeGenerator._build_education_section`: unconditional header. -/
def buildEducationSection (g : GenWidths) (education : List EducationBlock) :
    List Flowable :=
  createSectionHeader g "EDUCATION" false ++ concatMap eduElements education

/-- Per-entry elements of `_build_certifications_section`: the date line is
the issue year, with the expiry year appended only when present; no date
line at all without an issue date. -/
def certElements (cert : CertificationBlock) : List Flowable :=
  [Flowable.para ("<b>" ++ cert.title ++ "</b>") "LeftColumnText"] ++
  (match cert.issuer with
   | some i => if i ≠ "" then [Flowable.para i "LeftColumnText"] else []
   | none => []) ++
  (match cert.issue_date with
   | some d =>
     [Flowable.para
       (fmtY d ++
         (match cert.expiry_date with
          | some e => " - " ++ fmtY e
          | none => "")) "LeftColumnText"]
   | none => []) ++
  [Flowable.spacer 1 (2/100 * inchPt)]

/-- Source: `ResumeGenerator._build_certifications_section`. -/
def buildCertificationsSection (g : GenWidths)
    (certifications : List CertificationBlock) : List Flowable :=
  createSectionHeader g "CERTIFICATIONS" false ++ concatMap certElements certifications

/-- Per-entry elements of `_build_experience_section`: position, the
company/date subtitle (`"Present"` when the end date is `None`,
`"%b %Y"` otherwise), bullet points, spacer. -/
def expElements (exp : ExperienceBlock) : List Flowable :=
  [Flowable.para exp.position "ExperienceTitle",
   Flowable.para
     (exp.company ++ " | " ++ fmtBY exp.start_date ++ " - " ++
       (match exp.end_date with
        | some d => fmtBY d
        | none => "Present")) "ExperienceSubtitle"] ++
  exp.summary.map (fun point => Flowable.para ("• " ++ point) "RightColumnText") ++
  [Flowable.spacer 1 (5/100 * inchPt)]

/-- Source: `ResumeGenerator._build_experience_section`: unconditional header. -/
def buildExperienceSection (g : GenWidths) (experience : List ExperienceBlock) :
    List Flowable :=
  createSectionHeader g "WORK EXPERIENCE" true ++ concatMap expElements experience

/-- Per-block elements of `_build_custom_sections` (`hasattr` probes:
title always present on `SectionBlock`, subtitle/summary when truthy). -/
def customBlockElements (block : SectionBlock) : List Flowable :=
  [Flowable.para ("<b>" ++ block.title ++ "</b>") "ExperienceTitle"] ++
  (match block.subtitle with
   | some st => if st ≠ "" then [Flowable.para st "ExperienceSubtitle"] else []
   | none => []) ++
  block.summary.map (fun point => Flowable.para ("• " ++ point) "RightColumnText") ++
  [Flowable.spacer 1 (5/100 * inchPt)]

/-- Source: `ResumeGenerator._build_custom_sections`: per-section upper-cased
header, then its blocks. -/
def buildCustomSections (g : GenWidths)
    (custom_sections : List (String × List SectionBlock)) : List Flowable :=
  concatMap
    (fun sec =>
      createSectionHeader g (pyUpper sec.1) true ++
      concatMap customBlockElements sec.2)
    custom_sections

/-- The full story assembled by `ResumeGenerator.generate_pdf`, in source
order: candidate header, spacer, summary, contact, skills, education,
certifications (only if non-empty), the frame-break pair, experience,
custom sections (only if non-empty). -/
def buildStory (g : GenWidths) (symbola : Bool) (rd : ResumeData) : List Flowable :=
  buildCandidateHeader rd.candidate_info ++
  [Flowable.spacer 1 (1/10 * inchPt)] ++
  buildProfessionalSummaryLeft rd.professional_summary ++
  buildContactInfo g symbola rd.candidate_info ++
  buildSkillsSection g rd.skills ++
  buildEducationSection g rd.education ++
  (if rd.certifications = [] then []
   else buildCertificationsSection g rd.certifications) ++
  [Flowable.marker, Flowable.frameBreak] ++
  buildExperienceSection g rd.work_experience ++
  (if rd.custom_sections = [] then []
   else buildCustomSections g rd.custom_sections)

/-! ## Section-header projection of a story

Paragraphs styled `LeftColumnHeader` or `SectionHeader` are produced only by
`_create_section_header`; projecting them (plus the `FrameBreak`) out of a
story exposes the section order. -/

/-- Keep a flowable's section-header title and style
(or a break marker pair). -/
def headerTrace : Flowable → Option (String × String)
  | Flowable.para t sty =>
    if sty = "LeftColumnHeader" || sty = "SectionHeader" then some (t, sty) else none
  | Flowable.frameBreak => some ("<BREAK>", "<BREAK>")
  | _ => none

/-- The sequence of section headers (and the column break) of a story. -/
def headersOf (fs : List Flowable) : List (String × String) := fs.filterMap headerTrace

theorem headersOf_append (l₁ l₂ : List Flowable) :
    headersOf (l₁ ++ l₂) = headersOf l₁ ++ headersOf l₂ := by
  simp [headersOf]

theorem headerTrace_leftText (t : String) :
    headerTrace (Flowable.para t "LeftColumnText") = none := rfl

theorem headersOf_map_para (xs : List String) (f : String → String) (sty : String)
    (hsty : (sty = "LeftColumnHeader" || sty = "SectionHeader") = false) :
    headersOf (xs.map (fun s => Flowable.para (f s) sty)) = [] := by
  induction xs with
  | nil => rfl
  | cons a as ih =>
    simp only [List.map_cons]
    unfold headersOf
    rw [List.filterMap_cons]
    have h1 : headerTrace (Flowable.para (f a) sty) = none := by
      simp [headerTrace, hsty]
    rw [h1]
    exact ih

theorem headersOf_contactLines (symbola : Bool) (c : CandidateInfo) :
    headersOf ((contactLines symbola c).map
      (fun info => Flowable.para info "LeftColumnText")) = [] := by
  exact headersOf_map_para _ id "LeftColumnText" rfl

theorem headersOf_skillsLoop (skills : List (String × List String)) :
    headersOf (skillsLoop skills) = [] := by
  induction skills with
  | nil => rfl
  | cons a as ih =>
    match as with
    | [] => cases a; rfl
    | b :: bs =>
      cases a
      simp only [skillsLoop] at ih ⊢
      rw [headersOf_append, ih]
      rfl

theorem headersOf_eduElements (edu : EducationBlock) :
    headersOf (eduElements edu) = [] := by
  unfold eduElements
  cases h : edu.location with
  | none =>
    cases hg : gpaTruthy edu.gpa <;>
      simp [headersOf_append, headersOf, headerTrace, h, hg]
  | some l =>
    by_cases hl : l = "" <;> cases hg : gpaTruthy edu.gpa <;>
      simp [headersOf_append, headersOf, headerTrace, h, hl, hg]

theorem headersOf_certElements (cert : CertificationBlock) :
    headersOf (certElements cert) = [] := by
  unfold certElements
  cases hi : cert.issuer with
  | none =>
    cases hd : cert.issue_date <;>
      simp [headersOf_append, headersOf, headerTrace, hi, hd]
  | some i =>
    by_cases h : i = "" <;> cases hd : cert.issue_date <;>
      simp [headersOf_append, headersOf, headerTrace, hi, h, hd]

theorem headersOf_expElements (exp : ExperienceBlock) :
    headersOf (expElements exp) = [] := by
  unfold expElements
  rw [headersOf_append, headersOf_append]
  rw [headersOf_map_para _ (fun point => "• " ++ point) "RightColumnText" rfl]
  rfl

theorem headersOf_customBlockElements (block : SectionBlock) :
    headersOf (customBlockElements block) = [] := by
  unfold customBlockElements
  cases hs : block.subtitle with
  | none =>
    rw [headersOf_append, headersOf_append, headersOf_append]
    rw [headersOf_map_para _ (fun point => "• " ++ point) "RightColumnText" rfl]
    simp [headersOf, headerTrace, hs]
  | some st =>
    by_cases h : st = "" <;>
    · rw [headersOf_append, headersOf_append, headersOf_append]
      rw [headersOf_map_para _ (fun point => "• " ++ point) "RightColumnText" rfl]
      simp [headersOf, headerTrace, hs, h]

theorem headersOf_concatMap_nil {f : α → List Flowable}
    (hf : ∀ a, headersOf (f a) = []) (l : List α) :
    headersOf (concatMap f l) = [] := by
  induction l with
  | nil => rfl
  | cons a as ih =>
    rw [concatMap, headersOf_append, hf a, ih]
    rfl

theorem headersOf_createSectionHeader (g : GenWidths) (title : String)
    (b : Bool) : headersOf (createSectionHeader g title b) =
      [(title, if b then "SectionHeader" else "LeftColumnHeader")] := by
  cases b <;> simp [createSectionHeader, headersOf, headerTrace]

theorem headersOf_buildCustomSections (g : GenWidths)
    (cs : List (String × List SectionBlock)) :
    headersOf (buildCustomSections g cs) =
      cs.map (fun sec => (pyUpper sec.1, "SectionHeader")) := by
  induction cs with
  | nil => rfl
  | cons a as ih =>
    unfold buildCustomSections at ih ⊢
    rw [concatMap, headersOf_append, headersOf_append, ih,
      headersOf_createSectionHeader,
      headersOf_concatMap_nil headersOf_customBlockElements]
    rfl

/-- The section-header sequence of every generated story: contact, skills
and education headers always; certifications only when non-empty; then the
column break, the work-experience header, and the custom-section titles. -/
theorem headersOf_buildStory (g : GenWidths) (symbola : Bool) (rd : ResumeData) :
    headersOf (buildStory g symbola rd) =
      [("CONTACT", "LeftColumnHeader"), ("SKILLS", "LeftColumnHeader"),
       ("EDUCATION", "LeftColumnHeader")] ++
      (if rd.certifications = [] then []
       else [("CERTIFICATIONS", "LeftColumnHeader")]) ++
      [("<BREAK>", "<BREAK>"), ("WORK EXPERIENCE", "SectionHeader")] ++
      rd.custom_sections.map (fun sec => (pyUpper sec.1, "SectionHeader")) := by
  have hcert : headersOf
      (if rd.certifications = [] then []
       else buildCertificationsSection g rd.certifications) =
      (if rd.certifications = [] then []
       else [("CERTIFICATIONS", "LeftColumnHeader")]) := by
    by_cases h : rd.certifications = []
    · simp [h, headersOf]
    · simp only [h, if_false]
      unfold buildCertificationsSection
      rw [headersOf_append, headersOf_createSectionHeader,
        headersOf_concatMap_nil headersOf_certElements]
      rfl
  have hcustom : headersOf
      (if rd.custom_sections = [] then []
       else buildCustomSections g rd.custom_sections) =
      rd.custom_sections.map (fun sec => (pyUpper sec.1, "SectionHeader")) := by
    by_cases h : rd.custom_sections = []
    · simp [h, headersOf]
    · simp only [h, if_false, headersOf_buildCustomSections]
  unfold buildStory buildContactInfo buildSkillsSection buildEducationSection
    buildExperienceSection
  simp only [headersOf_append]
  rw [headersOf_contactLines, headersOf_skillsLoop,
    headersOf_concatMap_nil headersOf_eduElements,
    headersOf_concatMap_nil headersOf_expElements,
    headersOf_createSectionHeader, headersOf_createSectionHeader,
    headersOf_createSectionHeader, headersOf_createSectionHeader,
    hcert, hcustom]
  simp [buildCandidateHeader, buildProfessionalSummaryLeft, headersOf, headerTrace]

/-! ## Column-overflow detection (`ColumnAwareDoc`)

`handle_flowable` records the page/frame around each placement.  The frame
index after a placement is reached through reportlab's bookkeeping; the
marker's `wrap` (which sets `_left_column_finished`) runs inside the
`super().handle_flowable` call, before the overflow check. -/

/-- Source: `LeftColumnOverflowError(page_number)`. -/
structure LeftColumnOverflowErr where
  page_number : Nat
deriving DecidableEq, Repr

/-- The message built in `LeftColumnOverflowError.__init__`. -/
def overflowMessage (page_number : Nat) : String :=
  "Left column content spilled into the right column on page " ++
  toString page_number ++
  (". Please reduce content in the left column sections (professional summary, " ++
   "contact info, skills, education, or certifications) to fit within one page.")

/-- The mutable state of a `ColumnAwareDoc` during one rendering pass. -/
structure DocState where
  page : Nat
  frame : Nat
  last_page : Nat
  last_frame : Nat
  in_left_column_content : Bool
  left_column_finished : Bool
deriving DecidableEq, Repr

/-- State after `ColumnAwareDoc.__init__` (reportlab starts on page 1 in the
first frame of the template). -/
def initDocState : DocState :=
  { page := 1, frame := 0, last_page := 1, last_frame := 0
    in_left_column_content := false, left_column_finished := false }

/-- The observable effect of one `super().handle_flowable(...)` call: the
page and frame index afterwards, and whether the flowable processed was the
`LeftColumnFinishedMarker` (whose `wrap` calls `mark_left_column_finished`). -/
structure Placement where
  new_page : Nat
  new_frame : Nat
  processes_marker : Bool
deriving DecidableEq, Repr

/-- Source: `ColumnAwareDoc.handle_flowable` around one placement: runs the normal
behaviour, then either records the new position or raises
`LeftColumnOverflowError(new_page)` when the placement lands in frame 1
while left-column content has been seen and the marker has not run. -/
def handleFlowable (s : DocState) (p : Placement) :
    Except LeftColumnOverflowErr DocState :=
  let finished := s.left_column_finished || p.processes_marker
  if p.new_frame = 0 then
    Except.ok { page := p.new_page, frame := p.new_frame
                last_page := p.new_page, last_frame := p.new_frame
                in_left_column_content := true
                left_column_finished := finished }
  else if p.new_frame = 1 && s.in_left_column_content && !finished then
    Except.error ⟨p.new_page⟩
  else
    Except.ok { page := p.new_page, frame := p.new_frame
                last_page := p.new_page, last_frame := p.new_frame
                in_left_column_content := s.in_left_column_content
                left_column_finished := finished }

/-- A rendering pass: placements handled in order; an error aborts the pass
(the exception propagates out of `doc.build`, with no retry). -/
def runDoc (s : DocState) : List Placement → Except LeftColumnOverflowErr DocState
  | [] => Except.ok s
  | p :: ps =>
    match handleFlowable s p with
    | Except.error e => Except.error e
    | Except.ok s' => runDoc s' ps

theorem handleFlowable_finished_ok (s : DocState) (p : Placement)
    (h : s.left_column_finished = true) :
    handleFlowable s p =
      Except.ok { page := p.new_page, frame := p.new_frame
                  last_page := p.new_page, last_frame := p.new_frame
                  in_left_column_content :=
                    (if p.new_frame = 0 then true else s.in_left_column_content)
                  left_column_finished := true } := by
  unfold handleFlowable
  by_cases h0 : p.new_frame = 0 <;> simp [h0, h]

theorem runDoc_finished_ok (ps : List Placement) (s : DocState)
    (h : s.left_column_finished = true) :
    ∃ s', runDoc s ps = Except.ok s' ∧ s'.left_column_finished = true := by
  induction ps generalizing s with
  | nil => exact ⟨s, rfl, h⟩
  | cons p rest ih =>
    rw [runDoc, handleFlowable_finished_ok s p h]
    exact ih _ rfl

/-! ## Page and option geometry: both `config.py` iterations -/

/-- One reportlab millimetre in points (`mm = 72 / 25.4`). -/
def mmPt : ℚ := 360/127

/-- The `PageSize` string enum shared by both config iterations. -/
inductive PageSizeName where
  | a3
  | a4
  | a5
  | legal
  | letter
deriving DecidableEq, Repr

/-- The fixed reportlab dimensions each enum member maps to. -/
def PageSizeName.dims : PageSizeName → ℚ × ℚ
  | .a3 => (297 * mmPt, 420 * mmPt)
  | .a4 => (210 * mmPt, 297 * mmPt)
  | .a5 => (148 * mmPt, 210 * mmPt)
  | .legal => (612, 1008)
  | .letter => (612, 792)

/-- Source: `neat_resume/config.py` `Margins` (defaults 0.25 in each side). -/
structure NRMargins where
  left : ℚ := 1/4 * inchPt
  right : ℚ := 1/4 * inchPt
  top : ℚ := 1/4 * inchPt
  bottom : ℚ := 1/4 * inchPt
deriving DecidableEq, Repr

/-- Source: `neat_resume/config.py` `Options`: plain float fields; no range
constraint is declared on any of them, `sidebar_size` included. -/
structure NROptions where
  column_gap : ℚ := 1/10 * inchPt
  indent_spacing : ℚ := 15/100 * inchPt
  item_spacing : ℚ := 1/10 * inchPt
  section_spacing : ℚ := 3/10 * inchPt
  sidebar_size : ℚ := 35/100
deriving DecidableEq, Repr

/-- Pydantic construction of `neat_resume` `Options`: every float value is
accepted (the model declares no `ge`/`gt`/`lt`/`le` bound). -/
def NROptions.construct (column_gap indent_spacing item_spacing
    section_spacing sidebar_size : ℚ) : Except String NROptions :=
  Except.ok ⟨column_gap, indent_spacing, item_spacing, section_spacing, sidebar_size⟩

/-- Source: `neat_resume/config.py` `Page` with its computed geometry. -/
structure NRPage where
  margins : NRMargins := {}
  paper : PageSizeName := PageSizeName.letter
  options : NROptions := {}
deriving DecidableEq, Repr

def NRPage.content_width (p : NRPage) : ℚ :=
  (p.paper.dims).1 - p.margins.left - p.margins.right

def NRPage.content_height (p : NRPage) : ℚ :=
  (p.paper.dims).2 - p.margins.top - p.margins.bottom

def NRPage.page_width (p : NRPage) : ℚ := (p.paper.dims).1

def NRPage.page_height (p : NRPage) : ℚ := (p.paper.dims).2

/-- Source: `main_width = content_width * (1 - sidebar_size)`. -/
def NRPage.main_width (p : NRPage) : ℚ :=
  p.content_width * (1 - p.options.sidebar_size)

/-- Source: `sidebar_width = content_width * sidebar_size`. -/
def NRPage.sidebar_width (p : NRPage) : ℚ :=
  p.content_width * p.options.sidebar_size

/-- Source: `neatresume/config.py` `Options` (defaults from the `Defaults` table:
gap 0.2 in, split 0.34); again plain float fields without constraints. -/
structure NTOptions where
  item_spacing : ℚ := 1/10 * inchPt
  section_spacing : ℚ := 3/10 * inchPt
  column_gap : ℚ := 2/10 * inchPt
  column_split : ℚ := 34/100
deriving DecidableEq, Repr

/-- Pydantic construction of `neatresume` `Options`: every float value is
accepted (no declared bound on `column_split`). -/
def NTOptions.construct (item_spacing section_spacing column_gap
    column_split : ℚ) : Except String NTOptions :=
  Except.ok ⟨item_spacing, section_spacing, column_gap, column_split⟩

/-- Source: `neatresume/config.py` `Margins` (defaults 0.25 in each side). -/
structure NTMargins where
  left : ℚ := 1/4 * inchPt
  right : ℚ := 1/4 * inchPt
  top : ℚ := 1/4 * inchPt
  bottom : ℚ := 1/4 * inchPt
deriving DecidableEq, Repr

/-- Source: `neatresume/config.py` `Page` with its calculated fields. -/
structure NTPage where
  margins : NTMargins := {}
  size : PageSizeName := PageSizeName.letter
  options : NTOptions := {}
deriving DecidableEq, Repr

def NTPage.width (p : NTPage) : ℚ := (p.size.dims).1

def NTPage.height (p : NTPage) : ℚ := (p.size.dims).2

/-- Source: `column_left_width = self.width * self.options.column_split` — computed
from the full page width, with no margin subtracted. -/
def NTPage.column_left_width (p : NTPage) : ℚ :=
  p.width * p.options.column_split

/-- Source: `column_right_width = self.width - self.column_left_width`. -/
def NTPage.column_right_width (p : NTPage) : ℚ :=
  p.width - p.column_left_width

/-- The content width (page width minus both margins) of a `neatresume`
page — what the spec's geometry rule multiplies by the split ratio. -/
def NTPage.usable_width (p : NTPage) : ℚ :=
  p.width - p.margins.left - p.margins.right

/-! ## Config defaulting and filename generation (`neat_resume/config.py`) -/

/-- Source: `strftime("%Y-%m-%d")`. -/
def pad2 (n : Nat) : String :=
  (if n < 10 then "0" else "") ++ toString n

def fmtISO (d : Date) : String :=
  pad4 d.year ++ "-" ++ pad2 d.month ++ "-" ++ pad2 d.day

/-- The parts of `neat_resume` `Resume` the config layer reads. -/
structure NRResume where
  candidate : CandidateInfo
  summary : String
deriving DecidableEq, Repr

/-- The resolved `neat_resume` `Config` (styles carry no geometry and are
not modelled). -/
structure NRConfig where
  resume : NRResume
  file : String
  page : NRPage
deriving DecidableEq, Repr

/-- Pydantic resolution of `Config`: `page` defaults to `Page()`, `file`
defaults to the empty `Path()`, and the `generate_filename` model validator
replaces an empty path by
`<name lowercased, spaces to underscores>_resume_<today iso>.pdf`. -/
def NRConfig.resolve (resume : NRResume) (file : Option String)
    (page : Option NRPage) (today : Date) : NRConfig :=
  let f0 := file.getD ""
  let f := if f0 = "" then
      slugify resume.candidate.name ++ "_resume_" ++ fmtISO today ++ ".pdf"
    else f0
  { resume := resume, file := f, page := page.getD {} }

/-! ## Background painting (`TintedPageTemplate.beforeDrawPage`) -/

/-- The template's stored page geometry. -/
structure TintedPageTemplate where
  left_col_width : ℚ
  page_width : ℚ
  page_height : ℚ
  left_margin : ℚ
  tint_color : String := "#e1e8f0"
deriving DecidableEq, Repr

/-- A filled `canvas.rect(x, y, w, h)` call. -/
structure RectOp where
  x : ℚ
  y : ℚ
  w : ℚ
  h : ℚ
  color : String
deriving DecidableEq, Repr

/-- Source: `beforeDrawPage` draws a single filled rectangle from the left page edge
to `left_margin + left_col_width + 0.05 in`, over the full page height. -/
def TintedPageTemplate.beforeDrawPage (t : TintedPageTemplate) : List RectOp :=
  let column_boundary := t.left_margin + t.left_col_width + 5/100 * inchPt
  [{ x := 0, y := 0, w := column_boundary, h := t.page_height, color := t.tint_color }]

/-- The template constructed in `generate_pdf`: letter page, 0.25 in left
margin, sidebar frame width `content width × 0.34`. -/
def genTemplate : TintedPageTemplate :=
  { left_col_width := genLeftColFrame
    page_width := genContentWidth
    page_height := letterSize.2
    left_margin := genMarginPt }

/-! ## Claims -/

/-- C6: a config with a resume but no `page` or `file` entry resolves to the
Letter page size, 0.25-inch (18 pt) margins on all four sides, and the
output filename `<name lowercased, spaces replaced by underscores>_resume_<YYYY-MM-DD>.pdf`. -/
theorem c6_config_defaulting (resume : NRResume) (today : Date) :
    (NRConfig.resolve resume none none today).page.paper = PageSizeName.letter ∧
    (NRConfig.resolve resume none none today).page.margins =
      { left := 18, right := 18, top := 18, bottom := 18 } ∧
    (NRConfig.resolve resume none none today).file =
      slugify resume.candidate.name ++ "_resume_" ++ fmtISO today ++ ".pdf" := by
  refine ⟨rfl, ?_, ?_⟩
  · have h : ({} : NRMargins) = { left := 18, right := 18, top := 18, bottom := 18 } := by
      simp only [NRMargins.mk.injEq]
      norm_num [inchPt]
    exact h
  · simp [NRConfig.resolve]

/-- C9: once the column-break marker flowable is processed (its wrap runs
inside the placement), the finished flag is set and remains set, and no
later placement of the pass raises `LeftColumnOverflowError`, whatever
frame transitions follow. -/
theorem c9_no_overflow_after_marker (s : DocState) (p : Placement)
    (ps : List Placement) (hm : p.processes_marker = true) :
    ∃ s₁ s₂, handleFlowable s p = Except.ok s₁ ∧ s₁.left_column_finished = true ∧
      runDoc s₁ ps = Except.ok s₂ ∧ s₂.left_column_finished = true := by
  have hstep : handleFlowable s p = Except.ok
      { page := p.new_page, frame := p.new_frame
        last_page := p.new_page, last_frame := p.new_frame
        in_left_column_content :=
          (if p.new_frame = 0 then true else s.in_left_column_content)
        left_column_finished := true } := by
    unfold handleFlowable
    rw [hm]
    by_cases h0 : p.new_frame = 0 <;> simp [h0]
  obtain ⟨s₂, hrun, hfin⟩ := runDoc_finished_ok ps
    { page := p.new_page, frame := p.new_frame
      last_page := p.new_page, last_frame := p.new_frame
      in_left_column_content :=
        (if p.new_frame = 0 then true else s.in_left_column_content)
      left_column_finished := true } rfl
  exact ⟨_, s₂, hstep, rfl, hrun, hfin⟩

/-- C9 witness: after a marker placement at the start of a pass, a later
placement jumping from frame 0 to frame 1 completes without error. -/
theorem c9_no_overflow_after_marker_witness :
    ∃ s₁ s₂, handleFlowable initDocState ⟨1, 0, true⟩ = Except.ok s₁ ∧
      s₁.left_column_finished = true ∧
      runDoc s₁ [⟨1, 1, false⟩, ⟨2, 0, false⟩, ⟨2, 1, false⟩] = Except.ok s₂ ∧
      s₂.left_column_finished = true :=
  c9_no_overflow_after_marker initDocState ⟨1, 0, true⟩
    [⟨1, 1, false⟩, ⟨2, 0, false⟩, ⟨2, 1, false⟩] rfl

/-- C10: a GPA of exactly 0.0 passes the model's `[0, 4]` validation, yet
the education section renders no GPA line for it — the output equals that
of a block with no GPA — while any non-zero (truthy) GPA value yields its
`GPA: x.xx` paragraph. -/
theorem c10_gpa_zero (g : GenWidths) (e : EducationBlock)
    (h : e.gpa = some 0) :
    gpaValid e.gpa = true ∧
    buildEducationSection g [e] = buildEducationSection g [{ e with gpa := none }] ∧
    (∀ (e' : EducationBlock) (v : ℚ), e'.gpa = some v → v ≠ 0 →
      Flowable.para ("GPA: " ++ fmtFixed2 v) "LeftColumnText" ∈ eduElements e') := by
  refine ⟨by rw [h]; rfl, ?_, ?_⟩
  · simp [buildEducationSection, concatMap, eduElements, h, gpaTruthy]
  · intro e' v hv hnz
    unfold eduElements
    rw [hv]
    simp [gpaTruthy, hnz]

/-- C10 witness: with GPA 0.00, the rendered education section coincides
with the GPA-less one at a concrete block. -/
theorem c10_gpa_zero_witness :
    buildEducationSection genWidths
      [{ degree := "BS", field_of_study := "Computing", institution := "State U",
         start_date := ⟨2015, 9, 1⟩, gpa := some 0 }] =
    buildEducationSection genWidths
      [{ degree := "BS", field_of_study := "Computing", institution := "State U",
         start_date := ⟨2015, 9, 1⟩, gpa := none }] :=
  (c10_gpa_zero genWidths
    { degree := "BS", field_of_study := "Computing", institution := "State U",
      start_date := ⟨2015, 9, 1⟩, gpa := some 0 } rfl).2.1

/-- C1 counterexample: the claim fails on the very first placement of a
pass.  The document starts in frame 0 with the marker unprocessed, yet a
placement that ends in frame 1 raises nothing and the pass continues,
because `_in_left_column_content` is still false: no earlier placement has
ended in the sidebar frame. -/
theorem c1_counterexample :
    initDocState.frame = 0 ∧ initDocState.left_column_finished = false ∧
    handleFlowable initDocState ⟨1, 1, false⟩ =
      Except.ok { page := 1, frame := 1, last_page := 1, last_frame := 1
                  in_left_column_content := false
                  left_column_finished := false } :=
  ⟨rfl, rfl, rfl⟩

/-- C1 (amended): once some placement has ended in the sidebar frame (the
`_in_left_column_content` flag is set), any placement that lands in frame 1
(main) before the column-break marker has been processed fails the pass
with `LeftColumnOverflowError` carrying the page number after that
placement; the error message names that page and instructs the caller to
reduce left-column content; the remaining placements are not attempted. -/
theorem c1_overflow_detected (s : DocState) (p : Placement) (ps : List Placement)
    (hin : s.in_left_column_content = true)
    (hfin : s.left_column_finished = false)
    (hm : p.processes_marker = false)
    (hf : p.new_frame = 1) :
    runDoc s (p :: ps) = Except.error ⟨p.new_page⟩ ∧
    containsSub (overflowMessage p.new_page)
      "Please reduce content in the left column sections" = true ∧
    containsSub (overflowMessage p.new_page)
      (" page " ++ toString p.new_page) = true := by
  have hstep : handleFlowable s p = Except.error ⟨p.new_page⟩ := by
    unfold handleFlowable
    rw [hm, hf, hin, hfin]
    simp
  refine ⟨by simp [runDoc, hstep], ?_, ?_⟩
  · have htail : (". Please reduce content in the left column sections (professional summary, " ++
        "contact info, skills, education, or certifications) to fit within one page." : String) =
        ". " ++ ("Please reduce content in the left column sections" ++
          " (professional summary, contact info, skills, education, or certifications) to fit within one page.") := by
      decide
    have hsplit : overflowMessage p.new_page =
        ("Left column content spilled into the right column on page " ++
          toString p.new_page ++ ". ") ++
        ("Please reduce content in the left column sections" ++
         " (professional summary, contact info, skills, education, or certifications) to fit within one page.") := by
      unfold overflowMessage
      rw [htail]
      simp only [String.append_assoc]
    rw [hsplit]
    exact containsSub_of_middle _ _ _
  · have hsplit : overflowMessage p.new_page =
        "Left column content spilled into the right column on" ++
        ((" page " ++ toString p.new_page) ++
         (". Please reduce content in the left column sections (professional summary, " ++
          "contact info, skills, education, or certifications) to fit within one page.")) := by
      unfold overflowMessage
      rw [show ("Left column content spilled into the right column on page " : String) =
        "Left column content spilled into the right column on" ++ " page " by decide]
      simp only [String.append_assoc]
    rw [hsplit]
    exact containsSub_of_middle _ _ _

/-- C1 witness: with sidebar content registered and the marker unprocessed,
a placement landing in the main frame on page 1 aborts the pass with the
error naming page 1. -/
theorem c1_overflow_detected_witness :
    runDoc { page := 1, frame := 0, last_page := 1, last_frame := 0
             in_left_column_content := true, left_column_finished := false }
        [⟨1, 1, false⟩, ⟨1, 1, false⟩] = Except.error ⟨1⟩ ∧
    containsSub (overflowMessage 1)
      "Please reduce content in the left column sections" = true ∧
    containsSub (overflowMessage 1) (" page " ++ toString 1) = true :=
  c1_overflow_detected
    { page := 1, frame := 0, last_page := 1, last_frame := 0
      in_left_column_content := true, left_column_finished := false }
    ⟨1, 1, false⟩ [⟨1, 1, false⟩] rfl rfl rfl rfl

/-- C2 counterexample: a resume whose `skills` mapping is empty still gets
a "SKILLS" sidebar section header in the generated content stream. -/
theorem c2_counterexample :
    ("SKILLS", "LeftColumnHeader") ∈ headersOf (buildStory genWidths false
      { candidate_info :=
          { name := "Alex Chen", title := "Engineer",
            email := "alex@example.com", phone := "+15551234567" },
        professional_summary := "Summary.",
        skills := [] }) := by
  rw [headersOf_buildStory]
  simp

/-- C2 (amended): the certification and custom-section headers appear in
the content stream exactly when their collections are non-empty — the
certifications header is present iff the list is non-empty, an empty
custom-section mapping leaves the header sequence exactly the fixed one
with no custom header, and every section of a non-empty mapping
contributes its upper-cased header — but the SKILLS, EDUCATION and WORK
EXPERIENCE section headers are emitted unconditionally: an empty skills
mapping (or education/experience list) still contributes its header with
nothing under it. -/
theorem c2_section_header_emission (g : GenWidths) (symbola : Bool)
    (rd : ResumeData) :
    ("SKILLS", "LeftColumnHeader") ∈ headersOf (buildStory g symbola rd) ∧
    ("EDUCATION", "LeftColumnHeader") ∈ headersOf (buildStory g symbola rd) ∧
    ("WORK EXPERIENCE", "SectionHeader") ∈ headersOf (buildStory g symbola rd) ∧
    (("CERTIFICATIONS", "LeftColumnHeader") ∈ headersOf (buildStory g symbola rd)
      ↔ rd.certifications ≠ []) ∧
    (rd.custom_sections = [] →
      headersOf (buildStory g symbola rd) =
        [("CONTACT", "LeftColumnHeader"), ("SKILLS", "LeftColumnHeader"),
         ("EDUCATION", "LeftColumnHeader")] ++
        (if rd.certifications = [] then []
         else [("CERTIFICATIONS", "LeftColumnHeader")]) ++
        [("<BREAK>", "<BREAK>"), ("WORK EXPERIENCE", "SectionHeader")]) ∧
    (∀ sec ∈ rd.custom_sections,
      (pyUpper sec.1, "SectionHeader") ∈ headersOf (buildStory g symbola rd)) := by
  rw [headersOf_buildStory]
  refine ⟨by simp, by simp, by simp, ?_, ?_, ?_⟩
  · by_cases h : rd.certifications = [] <;> simp [h, List.mem_map]
  · intro h
    simp [h]
  · intro sec hsec
    have hmem : (pyUpper sec.1, "SectionHeader") ∈
        rd.custom_sections.map (fun s2 => (pyUpper s2.1, "SectionHeader")) :=
      List.mem_map.mpr ⟨sec, hsec, rfl⟩
    simp [hmem]

/-- C3 counterexample: for a concrete resume with non-empty skills,
education and certifications, the sidebar headers run contact, skills,
education, certifications — the skills header precedes the education
header, contradicting the claimed order (education, then
certifications, then skills). -/
theorem c3_counterexample :
    headersOf (buildStory genWidths false
      { candidate_info :=
          { name := "Alex Chen", title := "Engineer",
            email := "alex@example.com", phone := "+15551234567" },
        professional_summary := "Summary.",
        skills := [("Languages", ["Python"])],
        education := [{ degree := "BS", field_of_study := "CS",
                        institution := "State U", start_date := ⟨2015, 9, 1⟩ }],
        work_experience := [{ company := "Acme", position := "Dev",
                              start_date := ⟨2020, 1, 6⟩, summary := [] }],
        certifications := [{ title := "Cert" }] }) =
      [("CONTACT", "LeftColumnHeader"), ("SKILLS", "LeftColumnHeader"),
       ("EDUCATION", "LeftColumnHeader"), ("CERTIFICATIONS", "LeftColumnHeader"),
       ("<BREAK>", "<BREAK>"), ("WORK EXPERIENCE", "SectionHeader")] ∧
    List.indexOf ("SKILLS", "LeftColumnHeader")
        [("CONTACT", "LeftColumnHeader"), ("SKILLS", "LeftColumnHeader"),
         ("EDUCATION", "LeftColumnHeader"), ("CERTIFICATIONS", "LeftColumnHeader"),
         ("<BREAK>", "<BREAK>"), ("WORK EXPERIENCE", "SectionHeader")] <
      List.indexOf ("EDUCATION", "LeftColumnHeader")
        [("CONTACT", "LeftColumnHeader"), ("SKILLS", "LeftColumnHeader"),
         ("EDUCATION", "LeftColumnHeader"), ("CERTIFICATIONS", "LeftColumnHeader"),
         ("<BREAK>", "<BREAK>"), ("WORK EXPERIENCE", "SectionHeader")] := by
  constructor
  · rw [headersOf_buildStory]
    simp
  · decide

/-- C3 (amended): the story always begins with the candidate header
(name, title), a spacer, then the professional summary; the section
headers then run contact, skills, education, certifications (when
non-empty), the column break, work experience, and the custom-section
titles, in that fixed order — skills precede education and
certifications in the sidebar, and skills/education headers are not
conditional on non-emptiness. -/
theorem c3_story_order (g : GenWidths) (symbola : Bool) (rd : ResumeData) :
    (buildStory g symbola rd).take 5 =
      [Flowable.para rd.candidate_info.name "CandidateName",
       Flowable.para rd.candidate_info.title "CandidateTitle",
       Flowable.spacer 1 (1/10 * inchPt),
       Flowable.para rd.professional_summary "LeftColumnSummary",
       Flowable.spacer 1 (5/100 * inchPt)] ∧
    headersOf (buildStory g symbola rd) =
      [("CONTACT", "LeftColumnHeader"), ("SKILLS", "LeftColumnHeader"),
       ("EDUCATION", "LeftColumnHeader")] ++
      (if rd.certifications = [] then []
       else [("CERTIFICATIONS", "LeftColumnHeader")]) ++
      [("<BREAK>", "<BREAK>"), ("WORK EXPERIENCE", "SectionHeader")] ++
      rd.custom_sections.map (fun sec => (pyUpper sec.1, "SectionHeader")) := by
  refine ⟨?_, headersOf_buildStory g symbola rd⟩
  simp [buildStory, buildCandidateHeader, buildProfessionalSummaryLeft,
    List.take_append_eq_append_take]

/-- C4 counterexample: a certification block with an issue date but an
absent expiry (end) date renders a bare year — no "Present" token appears
anywhere in its elements, contradicting the claim that every block with an
absent end date renders "Present". -/
theorem c4_counterexample :
    certElements { title := "Cert", issue_date := some ⟨2020, 5, 1⟩ } =
      [Flowable.para "<b>Cert</b>" "LeftColumnText",
       Flowable.para "2020" "LeftColumnText",
       Flowable.spacer 1 (2/100 * inchPt)] ∧
    (certElements { title := "Cert", issue_date := some ⟨2020, 5, 1⟩ }).all
      (fun f => match f with
        | Flowable.para t _ => !(containsSub t "Present")
        | _ => true) = true := by
  constructor
  · rfl
  · rfl

/-- C4 (amended): experience and education entries with an absent end date
render the literal "Present" (after a month+year start for experience, a
year-only start for education), and those with an end date render it in
the same granularity; certification entries render the issue year with the
expiry year appended only when present — never "Present". -/
theorem c4_date_rendering (g : GenWidths) :
    (∀ (es : List ExperienceBlock) (e : ExperienceBlock), e ∈ es →
      Flowable.para
        (e.company ++ " | " ++ fmtBY e.start_date ++ " - " ++
          (match e.end_date with
           | some d => fmtBY d
           | none => "Present")) "ExperienceSubtitle"
        ∈ buildExperienceSection g es) ∧
    (∀ (eds : List EducationBlock) (ed : EducationBlock), ed ∈ eds →
      Flowable.para
        (fmtY ed.start_date ++ " - " ++
          (match ed.end_date with
           | some d => fmtY d
           | none => "Present")) "LeftColumnText"
        ∈ buildEducationSection g eds) ∧
    (∀ (cs : List CertificationBlock) (c : CertificationBlock) (d : Date),
      c ∈ cs → c.issue_date = some d →
      Flowable.para
        (fmtY d ++
          (match c.expiry_date with
           | some e2 => " - " ++ fmtY e2
           | none => "")) "LeftColumnText"
        ∈ buildCertificationsSection g cs) := by
  refine ⟨?_, ?_, ?_⟩
  · intro es e he
    unfold buildExperienceSection
    rw [List.mem_append, mem_concatMap]
    exact Or.inr ⟨e, he, by simp [expElements]⟩
  · intro eds ed hed
    unfold buildEducationSection
    rw [List.mem_append, mem_concatMap]
    exact Or.inr ⟨ed, hed, by simp [eduElements]⟩
  · intro cs c d hc hd
    unfold buildCertificationsSection
    rw [List.mem_append, mem_concatMap]
    exact Or.inr ⟨c, hc, by simp [certElements, hd]⟩

/-- C4 witness: concrete open-ended experience and education entries, and a
certification with issue and expiry years. -/
theorem c4_date_rendering_witness :
    Flowable.para "Acme | Jan 2020 - Present" "ExperienceSubtitle"
      ∈ buildExperienceSection genWidths
        [{ company := "Acme", position := "Dev",
           start_date := ⟨2020, 1, 6⟩, summary := [] }] ∧
    Flowable.para "2015 - Present" "LeftColumnText"
      ∈ buildEducationSection genWidths
        [{ degree := "BS", field_of_study := "CS", institution := "State U",
           start_date := ⟨2015, 9, 1⟩ }] ∧
    Flowable.para "2020 - 2023" "LeftColumnText"
      ∈ buildCertificationsSection genWidths
        [{ title := "Cert", issue_date := some ⟨2020, 5, 1⟩,
           expiry_date := some ⟨2023, 5, 1⟩ }] := by
  refine ⟨?_, ?_, ?_⟩
  · exact (c4_date_rendering genWidths).1 _ _ (List.mem_singleton.mpr rfl)
  · exact (c4_date_rendering genWidths).2.1 _ _ (List.mem_singleton.mpr rfl)
  · exact (c4_date_rendering genWidths).2.2 _ _ ⟨2020, 5, 1⟩
      (List.mem_singleton.mpr rfl) rfl

/-- C5 counterexample: the default `neatresume` page (Letter, 0.25-inch
margins, split 0.34) exposes `column_left_width = 612 × 0.34 = 208.08`,
computed from the full page width — not the content width
(576 × 0.34 = 195.84) the claim requires. -/
theorem c5_counterexample :
    ({} : NTPage).column_left_width = 5202/25 ∧
    ({} : NTPage).usable_width * ({} : NTPage).options.column_split = 4896/25 ∧
    ({} : NTPage).column_left_width ≠
      ({} : NTPage).usable_width * ({} : NTPage).options.column_split := by
  refine ⟨?_, ?_, ?_⟩ <;>
    norm_num [NTPage.column_left_width, NTPage.usable_width, NTPage.width,
      PageSizeName.dims, inchPt]

/-- C5 (amended): the `neat_resume` config computes the claimed geometry —
sidebar width = content width × ratio and main width = content width −
sidebar width (in particular 0.34·W and 0.66·W for ratio 0.34) — while the
`neatresume` config computes `column_left_width` from the full page width
with no margins subtracted, and `column_right_width` as its complement;
the generator itself derives its frame widths from the content width. -/
theorem c5_column_geometry (p : NRPage) (q : NTPage)
    (hr : p.options.sidebar_size = 34/100) :
    p.sidebar_width = p.content_width * p.options.sidebar_size ∧
    p.main_width = p.content_width - p.sidebar_width ∧
    p.sidebar_width = 34/100 * p.content_width ∧
    p.main_width = 66/100 * p.content_width ∧
    q.column_left_width = q.width * q.options.column_split ∧
    q.column_right_width = q.width - q.column_left_width ∧
    genLeftColFrame = genContentWidth * (34/100) ∧
    genRightColFrame = genContentWidth - genLeftColFrame := by
  refine ⟨rfl, ?_, ?_, ?_, rfl, rfl, rfl, ?_⟩
  · unfold NRPage.main_width NRPage.sidebar_width
    ring
  · unfold NRPage.sidebar_width
    rw [hr]
    ring
  · unfold NRPage.main_width
    rw [hr]
    ring
  · unfold genRightColFrame genLeftColFrame genContentWidth
    norm_num [letterSize, genMarginPt, inchPt]

/-- C5 witness: the default `neat_resume` page with split ratio 0.34. -/
theorem c5_column_geometry_witness :
    ({ options := { sidebar_size := 34/100 } } : NRPage).sidebar_width =
      34/100 * ({ options := { sidebar_size := 34/100 } } : NRPage).content_width ∧
    ({ options := { sidebar_size := 34/100 } } : NRPage).main_width =
      66/100 * ({ options := { sidebar_size := 34/100 } } : NRPage).content_width :=
  ⟨(c5_column_geometry { options := { sidebar_size := 34/100 } } {} rfl).2.2.1,
   (c5_column_geometry { options := { sidebar_size := 34/100 } } {} rfl).2.2.2.1⟩

/-- C7 counterexample: `neatresume` `Options` (and `neat_resume` `Options`)
accept a column split ratio of 2 — far outside (0,1) — at construction;
no validation rejects it. -/
theorem c7_counterexample :
    NTOptions.construct (1/10 * inchPt) (3/10 * inchPt) (2/10 * inchPt) 2 =
      Except.ok { item_spacing := 1/10 * inchPt, section_spacing := 3/10 * inchPt,
                  column_gap := 2/10 * inchPt, column_split := 2 } ∧
    NROptions.construct (1/10 * inchPt) (15/100 * inchPt) (1/10 * inchPt)
        (3/10 * inchPt) 2 =
      Except.ok { column_gap := 1/10 * inchPt, indent_spacing := 15/100 * inchPt,
                  item_spacing := 1/10 * inchPt, section_spacing := 3/10 * inchPt,
                  sidebar_size := 2 } ∧
    ¬((0 : ℚ) < 2 ∧ (2 : ℚ) < 1) := by
  refine ⟨rfl, rfl, ?_⟩
  norm_num

/-- C7 (amended): the split-ratio fields (`column_split` / `sidebar_size`)
are plain unvalidated floats: construction succeeds for every value, so no
(0,1) invariant is enforced; only the defaults, 0.34 and 0.35, happen to
lie strictly between 0 and 1. -/
theorem c7_split_ratio_unvalidated :
    (∀ a b c r : ℚ, NTOptions.construct a b c r =
      Except.ok { item_spacing := a, section_spacing := b,
                  column_gap := c, column_split := r }) ∧
    (∀ a b c d r : ℚ, NROptions.construct a b c d r =
      Except.ok { column_gap := a, indent_spacing := b, item_spacing := c,
                  section_spacing := d, sidebar_size := r }) ∧
    ({} : NTOptions).column_split = 34/100 ∧
    ({} : NROptions).sidebar_size = 35/100 ∧
    (0 : ℚ) < 34/100 ∧ (34/100 : ℚ) < 1 ∧
    (0 : ℚ) < 35/100 ∧ (35/100 : ℚ) < 1 := by
  refine ⟨fun a b c r => rfl, fun a b c d r => rfl, rfl, rfl, ?_, ?_, ?_, ?_⟩ <;>
    norm_num

/-- C8 counterexample: the before-content callback of the generator's page
template paints exactly one rectangle — there is no main-column
rectangle — and its width overlaps 0.05 inch past
`left_margin + sidebar_width`, so neither claimed rectangle is painted as
stated. -/
theorem c8_counterexample :
    genTemplate.beforeDrawPage =
      [{ x := 0, y := 0, w := genMarginPt + genLeftColFrame + 5/100 * inchPt,
         h := 792, color := "#e1e8f0" }] ∧
    genMarginPt + genLeftColFrame + 5/100 * inchPt ≠
      genMarginPt + genLeftColFrame := by
  refine ⟨rfl, ?_⟩
  norm_num [genMarginPt, genLeftColFrame, genContentWidth, letterSize, inchPt]

/-- C8 (amended): on every page the callback paints a single filled
sidebar-background rectangle covering
`[0, left_margin + sidebar_width + 0.05 in] × [0, page_height]`; no
main-column rectangle is painted.  For the generator's template the
boundary is 217.44 pt on a 792 pt-high page. -/
theorem c8_background_painting (t : TintedPageTemplate) :
    t.beforeDrawPage =
      [{ x := 0, y := 0, w := t.left_margin + t.left_col_width + 5/100 * inchPt,
         h := t.page_height, color := t.tint_color }] ∧
    genTemplate.beforeDrawPage =
      [{ x := 0, y := 0, w := 5436/25, h := 792, color := "#e1e8f0" }] := by
  refine ⟨rfl, ?_⟩
  unfold TintedPageTemplate.beforeDrawPage genTemplate
  norm_num [genMarginPt, genLeftColFrame, genContentWidth, letterSize, inchPt]
